import Mathlib

/-!
Verification development for the `printer_scripts` repository.

The repository holds three near-duplicate Python scripts driving a 3D
printer over a serial line:

* `calibrate-probe.py` — class `PrinterController` with `send_command`,
  `get_printer_information`, `get_probe_status` / `probe_triggered`,
  `calculate_center_position`, `wait_for_temperature`, `coarse_probe`,
  `fine_probe` and the top-level `run` pipeline;
* `calibrate_probe.py` — an older module-level variant of the same
  pipeline (same `send_command` and `wait_for_temperature`, a
  `get_probe_status` returning "OPEN"/"TRIGGERED"/None, and a fine-probe
  loop that appends the negated height);
* `send-commands.py` — an interactive REPL sharing the same
  `send_command`.

The scripts are embedded shallowly: every device interaction is driven by
an `Env` that gives, per query, the response string `send_command` would
have returned; each component is a pure function from `Env` to its result
together with the ordered trace of device-visible events (commands sent
and sleeps).  Python floats are modelled as `ℚ`; a Python exception is
modelled as an `Option`/dedicated constructor.  String parsing mirrors the
Python string operations (`split`, `strip`, `lower`, `startswith`,
substring membership, `float(...)`) via executable character-list
functions below.
-/

set_option maxRecDepth 100000

attribute [local semireducible] Rat.add Rat.sub Rat.mul Rat.inv Rat.ofScientific

/-! ## String primitives mirroring the Python string operations -/

/-- Mirrors Python `s.startswith(pre)`. -/
def strStartsWith (s pre : String) : Bool :=
  pre.toList.isPrefixOf s.toList

/-- Mirrors Python `needle in hay` (substring membership). -/
def strContainsSub (needle hay : String) : Bool :=
  (List.range (hay.toList.length + 1)).any
    (fun i => needle.toList.isPrefixOf (hay.toList.drop i))

/-- Fuel-indexed worker for `pySplit`; the fuel is the length of the input,
which bounds the recursion. -/
def splitListAux (sep : List Char) : Nat → List Char → List (List Char)
  | _, [] => [[]]
  | 0, l => [l]
  | fuel+1, c :: cs =>
    if sep.isPrefixOf (c :: cs) then
      [] :: splitListAux sep fuel (List.drop (sep.length - 1) cs)
    else
      match splitListAux sep fuel cs with
      | [] => [[c]]
      | r :: rs => (c :: r) :: rs

/-- Mirrors Python `s.split(sep)` for a non-empty separator `sep`. -/
def pySplit (s sep : String) : List String :=
  (splitListAux sep.toList s.toList.length s.toList).map (fun l => String.mk l)

/-- Worker for `pySplitWs`: splits on whitespace runs, discarding empties. -/
def splitWsAux : List Char → List Char → List (List Char)
  | [], acc => if acc.isEmpty then [] else [acc.reverse]
  | c :: cs, acc =>
    if c.isWhitespace then
      if acc.isEmpty then splitWsAux cs [] else acc.reverse :: splitWsAux cs []
    else splitWsAux cs (c :: acc)

/-- Mirrors Python `s.split()` (no argument): split on whitespace runs,
with no empty fields. -/
def pySplitWs (s : String) : List String :=
  (splitWsAux s.toList []).map (fun l => String.mk l)

/-- Mirrors Python `s.strip()`. -/
def pyStrip (s : String) : String :=
  String.mk (((s.toList.dropWhile Char.isWhitespace).reverse.dropWhile
    Char.isWhitespace).reverse)

/-- Mirrors Python `s.lower()` (ASCII case folding, as used here). -/
def pyLower (s : String) : String :=
  String.mk (s.toList.map Char.toLower)

/-- Reads a non-empty all-digit character list as a natural number. -/
def digitsToNat? (l : List Char) : Option Nat :=
  if l.isEmpty then none
  else if l.all Char.isDigit then
    some (l.foldl (fun acc c => acc * 10 + (c.toNat - ('0').toNat)) 0)
  else none

/-- Mirrors Python `float(s)` on plain decimal notation (optional sign,
digits, optional fractional part), the only shapes the firmware responses
use; `none` models the `ValueError` Python would raise. -/
def parseFloat (s : String) : Option ℚ :=
  let l := (pyStrip s).toList
  let sgnBody : ℚ × List Char :=
    match l with
    | '-' :: rest => (-1, rest)
    | '+' :: rest => (1, rest)
    | _ => (1, l)
  match splitListAux ['.'] sgnBody.2.length sgnBody.2 with
  | [w] =>
    match digitsToNat? w with
    | some n => some (sgnBody.1 * n)
    | none => none
  | [w, f] =>
    if w.isEmpty && f.isEmpty then none
    else
      match (if w.isEmpty then some 0 else digitsToNat? w),
            (if f.isEmpty then some 0 else digitsToNat? f) with
      | some nw, some nf =>
        some (sgnBody.1 * ((nw : ℚ) + (nf : ℚ) / (10 ^ f.length)))
      | _, _ => none
  | _ => none

/-! ## Constants (calibrate-probe.py lines 10-17) -/

/-- Constant `COARSE_STEP = 0.2` (calibrate-probe.py line 10). -/
def COARSE_STEP : ℚ := 0.2

/-- Constant `FINE_STEP = 0.01` (calibrate-probe.py line 11). -/
def FINE_STEP : ℚ := 0.01

/-- Constant `SAFE_Z_HEIGHT = 7.0` (calibrate-probe.py line 12). -/
def SAFE_Z_HEIGHT : ℚ := 7

/-- Constant `DEFAULT_BED_TARGET_TEMP = 65` (calibrate-probe.py line 13). -/
def DEFAULT_BED_TARGET_TEMP : ℚ := 65

/-- Constant `DEFAULT_DIMENSIONS = [235, 235, 235]` (calibrate-probe.py line 14). -/
def DEFAULT_DIMENSIONS : List ℚ := [235, 235, 235]

/-- Constant `PROBE_STOW_DELAY = 2.190` (calibrate-probe.py line 17). -/
def PROBE_STOW_DELAY : ℚ := 2.190

/-! ## Device-visible events

Each constructor names the literal command line the script sends (comments
give the g-code); `sleep` is a `time.sleep`, `close` is `self.ser.close()`
from the `finally` block.  Console `print` calls are not device-visible
and are not traced. -/

/-- Device-visible event alphabet of the scripts. -/
inductive Ev where
  | message                -- M117 {text}
  | infoQuery              -- M115
  | offsetQuery            -- M851 (query form, no arguments)
  | statusQuery            -- M119 (inside get_probe_status)
  | posQuery               -- M114
  | tempQuery              -- M105
  | deploy                 -- M280 P0 S10  (PROBE_DEPLOY_CMD)
  | stow                   -- M280 P0 S160 (PROBE_STOW_CMD)
  | setRel                 -- G91
  | setAbs                 -- G90
  | moveZRel (dz : ℚ)      -- G0 Z{dz}           (coarse descent step)
  | moveZRelF (dz : ℚ)     -- G1 Z{dz} F50       (fine descent step)
  | moveZAbs (z : ℚ)       -- G0 [F500] Z{z}
  | moveXY (x y : ℚ)       -- G0 F5000 X{x} Y{y}
  | levelingOff            -- M420 S0 Z0
  | home                   -- G28
  | setBedTemp (t : ℚ)     -- M140 S{t}
  | persistOffset (v : ℚ)  -- M851 Z{v} (v is the numeric value encoded)
  | meshQuery              -- G29 P1
  | meshRefine             -- G29 P3
  | saveConfig             -- M500
  | sleep (t : ℚ)          -- time.sleep(t)
  | close                  -- self.ser.close()
deriving DecidableEq

/-- Environment: for each query the script can issue, the response string
that `send_command` would have returned (the joined, stripped lines
received before the acknowledgment or timeout).  `m105` and `m119` are
indexed by how many queries of that kind were issued before. -/
structure Env where
  m115 : String
  m851 : String
  m105 : Nat → String
  m119 : Nat → String
  m114 : String

/-- Command-line configuration of calibrate-probe.py (lines 205-210). -/
structure Cfg where
  bed_temp : ℚ
  disable_bed : Bool
  run_g29 : Bool
  skip_homing : Bool

/-! ## send_command (calibrate-probe.py lines 31-48, identically
send-commands.py lines 17-34 and calibrate_probe.py lines 13-29) -/

/-- Mirrors `response.startswith("ok")`, the acknowledgment check of the
`send_command` read loop. -/
def okAck (l : String) : Bool := strStartsWith l "ok"

/-- Read loop of `send_command`: the input is the list of (stripped)
lines the device delivers within the timeout window, in order; the loop
appends each line and breaks at the first line starting with "ok", or
when the list is exhausted (timeout).  The source then returns
`'\n'.join(responses)`; we keep the line list. -/
def collectResponses : List String → List String
  | [] => []
  | l :: ls => if okAck l then [l] else l :: collectResponses ls

/-- Error vocabulary of the spec for the command channel. -/
inductive ProtoErr where
  | protocolTimeout (soFar : List String)
  | transportError
deriving DecidableEq

/-- Result of `send_command` with an explicit exception channel: the
source (calibrate-probe.py lines 31-48) has no `raise` on the timeout
path — when no "ok" line arrives it simply falls out of the loop and
returns the collected lines, so the embedding always returns `Except.ok`.
(The only exceptions it can propagate are transport errors raised by the
underlying `serial` calls, which are injected separately in `abortTrace`.) -/
def send_command (avail : List String) : Except ProtoErr (List String) :=
  Except.ok (collectResponses avail)

/-- Modelled from the spec: `CommandChannel.send` as §4.1 describes it,
failing with `ProtocolTimeout` (carrying the lines received so far) when
no acknowledgment line arrives before the timeout.  Used only to compare
the spec's contract with `send_command` above. -/
def send_spec (avail : List String) : Except ProtoErr (List String) :=
  let r := collectResponses avail
  if r.any okAck then Except.ok r else Except.error (ProtoErr.protocolTimeout r)

/-! ## Parsers (calibrate-probe.py) -/

/-- Method `get_probe_status` (calibrate-probe.py lines 77-84): scan the
M119 response for the first line containing "z_probe:", return its
colon-field 1 stripped and lowercased; `none` when no line matches. -/
def get_probe_status (response : String) : Option String :=
  match (pySplit response "\n").find? (fun l => strContainsSub "z_probe:" l) with
  | none => none
  | some l => some (pyLower (pyStrip ((pySplit l ":").getD 1 "")))

/-- Method `probe_triggered` (calibrate-probe.py lines 86-87):
`self.get_probe_status() == "triggered"`. -/
def probe_triggered (response : String) : Bool :=
  decide (get_probe_status response = some "triggered")

/-- Result of the i-th `probe_triggered` call under environment `env`. -/
def trigAt (env : Env) (i : Nat) : Bool :=
  probe_triggered (env.m119 i)

/-- Scan of the `max:{...}` dimension fields (calibrate-probe.py lines
55-59): for each comma-separated field, `if 'x:' in field` set the width
to `float(field.split(':')[1])`, `if 'y:' in field` set the height
likewise; `none` models the exception when such a `float` fails. -/
def scanDims : List String → Option ℚ → Option ℚ → Option (Option ℚ × Option ℚ)
  | [], w, h => some (w, h)
  | d :: ds, w, h =>
    if strContainsSub "x:" d then
      match parseFloat ((pySplit d ":").getD 1 "") with
      | none => none
      | some v =>
        if strContainsSub "y:" d then
          match parseFloat ((pySplit d ":").getD 1 "") with
          | none => none
          | some v2 => scanDims ds (some v) (some v2)
        else scanDims ds (some v) h
    else if strContainsSub "y:" d then
      match parseFloat ((pySplit d ":").getD 1 "") with
      | none => none
      | some v2 => scanDims ds w (some v2)
    else scanDims ds w h

/-- Geometry half of `get_printer_information` (calibrate-probe.py lines
51-63): find the first M115 response line containing "area:{full:{min:",
take the text after "max:{" up to "}", split it on commas and scan for
x/y fields; if either dimension is still unset afterwards (in particular
when no line matches), fall back to `DEFAULT_DIMENSIONS[0]` and
`DEFAULT_DIMENSIONS[1]` — silently, the source logs nothing.  `none`
models an exception (missing "max:{" after a matching line, or an
unparsable field). -/
def bedDims (response : String) : Option (ℚ × ℚ) :=
  let scanned : Option (Option ℚ × Option ℚ) :=
    match (pySplit response "\n").find?
        (fun l => strContainsSub "area:\x7bfull:\x7bmin:" l) with
    | none => some (none, none)
    | some l =>
      match (pySplit l "max:\x7b").get? 1 with
      | none => none
      | some rest => scanDims (pySplit ((pySplit rest "\x7d").getD 0 "") ",") none none
  match scanned with
  | none => none
  | some (some w, some h) => some (w, h)
  | some _ => some (DEFAULT_DIMENSIONS.getD 0 0, DEFAULT_DIMENSIONS.getD 1 0)

/-- Offset scan of `get_printer_information` (calibrate-probe.py lines
67-74): walk the whitespace parts of the echoed M851 line, updating the
X/Y/Z offsets from parts starting with the axis letters. -/
def scanParts : List String → (ℚ × ℚ × ℚ) → Option (ℚ × ℚ × ℚ)
  | [], o => some o
  | p :: ps, (x, y, z) =>
    if strStartsWith p "X" then
      match parseFloat (p.drop 1) with
      | none => none
      | some v => scanParts ps (v, y, z)
    else if strStartsWith p "Y" then
      match parseFloat (p.drop 1) with
      | none => none
      | some v => scanParts ps (x, v, z)
    else if strStartsWith p "Z" then
      match parseFloat (p.drop 1) with
      | none => none
      | some v => scanParts ps (x, y, v)
    else scanParts ps (x, y, z)

/-- Probe-offset half of `get_printer_information` (calibrate-probe.py
lines 64-75): offsets start at `{"X": 0.0, "Y": 0.0, "Z": 0.0}` and are
updated from the first response line starting with "M851"; with no such
line they stay zero. -/
def parseOffsets (response : String) : Option (ℚ × ℚ × ℚ) :=
  match (pySplit response "\n").find? (fun l => strStartsWith l "M851") with
  | none => some (0, 0, 0)
  | some l => scanParts (pySplitWs l) (0, 0, 0)

/-- Parse of the M114 position report in `coarse_probe` (calibrate-probe.py
line 115): `float(response.split('Z:')[1].split()[0])`. -/
def parseM114Z (response : String) : Option ℚ :=
  match (pySplit response "Z:").get? 1 with
  | none => none
  | some s =>
    match (pySplitWs s).head? with
    | none => none
    | some w => parseFloat w

/-- Method `calculate_center_position` (calibrate-probe.py lines 89-93). -/
def calculate_center_position (w h ox oy : ℚ) : ℚ × ℚ :=
  (w / 2 - ox, h / 2 - oy)

/-- Method `get_printer_information` (calibrate-probe.py lines 50-75):
send M115 and parse the bed geometry (with silent default fallback),
then send M851 and parse the stored offsets.  `none` models an exception
during either parse; the trace records the queries issued before it.
The method sends no M117 and prints nothing: its trace contains no
`Ev.message` (there is no warning channel on the fallback path). -/
def get_printer_information (env : Env) :
    Option ((ℚ × ℚ) × (ℚ × ℚ × ℚ)) × List Ev :=
  match bedDims env.m115 with
  | none => (none, [Ev.infoQuery])
  | some wh =>
    match parseOffsets env.m851 with
    | none => (none, [Ev.infoQuery, Ev.offsetQuery])
    | some o => (some (wh, o), [Ev.infoQuery, Ev.offsetQuery])

/-! ## wait_for_temperature (calibrate-probe.py lines 95-102, identically
calibrate_probe.py lines 56-63) -/

/-- Outcome of one body of the `wait_for_temperature` polling loop. -/
inductive PollStep where
  | cont   -- response does not start with "ok T:", or parsed temp below target
  | done   -- parsed temperature at or above target: break
  | exc    -- response starts with "ok T:" but the index/float access raises
deriving DecidableEq

/-- One poll of `wait_for_temperature`: if the M105 response starts with
"ok T:", read `float(response.split(":")[2].split()[0])` (the bed
temperature field) and break when it is `>= target_temp`; a missing
colon-field, missing word or failing `float` raises; otherwise sleep and
poll again. -/
def waitPoll (response : String) (target : ℚ) : PollStep :=
  if strStartsWith response "ok T:" then
    match (pySplit response ":").get? 2 with
    | none => PollStep.exc
    | some s =>
      match (pySplitWs s).head? with
      | none => PollStep.exc
      | some w =>
        match parseFloat w with
        | none => PollStep.exc
        | some temp => if target ≤ temp then PollStep.done else PollStep.cont
  else PollStep.cont

/-- Result of the `wait_for_temperature` loop: normal return after `n`
continue-polls, an exception, or fuel exhaustion — the source loop has no
other exit and in particular no timeout, so `fuelOut` means the loop is
still polling after `fuel` rounds. -/
inductive PollRes where
  | returned (n : Nat) (tr : List Ev)
  | raised (tr : List Ev)
  | fuelOut (tr : List Ev)
deriving DecidableEq

/-- Method `wait_for_temperature` (calibrate-probe.py lines 95-102):
`while True: send M105; parse; break if current >= target; sleep(1)`. -/
def wait_for_temperature (m105 : Nat → String) (target : ℚ) :
    Nat → Nat → PollRes
  | 0, _ => PollRes.fuelOut []
  | fuel+1, n =>
    match waitPoll (m105 n) target with
    | PollStep.done => PollRes.returned n [Ev.tempQuery]
    | PollStep.exc => PollRes.raised [Ev.tempQuery]
    | PollStep.cont =>
      match wait_for_temperature m105 target fuel (n+1) with
      | PollRes.returned m tr => PollRes.returned m (Ev.tempQuery :: Ev.sleep 1 :: tr)
      | PollRes.raised tr => PollRes.raised (Ev.tempQuery :: Ev.sleep 1 :: tr)
      | PollRes.fuelOut tr => PollRes.fuelOut (Ev.tempQuery :: Ev.sleep 1 :: tr)

/-! ## The shared descent loop of coarse_probe and fine_probe

Both probing loops in calibrate-probe.py have the shape
`while not self.probe_triggered() and self.z_height > 0: send(move);
self.z_height -= step` (lines 108-111 with `G0 Z-{COARSE_STEP}`, lines
131-133 with `G1 Z-{FINE_STEP} F50`).  Each evaluation of the loop
condition sends one M119 (inside `probe_triggered`), indexed by `k`. -/

/-- Shared descent loop.  Returns the next M119 index, the final
`z_height`, and the event trace.  `fuel` bounds the iterations; every
call site passes fuel exceeding the possible iteration count, and the
lemmas below state their fuel demands explicitly. -/
def descLoop (trig : Nat → Bool) (step : ℚ) (mv : Ev) :
    Nat → Nat → ℚ → Nat × ℚ × List Ev
  | 0, k, z => (k, z, [])
  | fuel+1, k, z =>
    if trig k then (k + 1, z, [Ev.statusQuery])
    else if 0 < z then
      let r := descLoop trig step mv fuel (k + 1) (z - step)
      (r.1, r.2.1, Ev.statusQuery :: mv :: r.2.2)
    else (k + 1, z, [Ev.statusQuery])

/-- Trace of a descent loop that runs `m` untriggered iterations and then
exits on the height check: `m` pairs of status query and move, then the
final status query. -/
def descTrace (mv : Ev) : Nat → List Ev
  | 0 => [Ev.statusQuery]
  | m+1 => Ev.statusQuery :: mv :: descTrace mv m

/-! ## coarse_probe and fine_probe (calibrate-probe.py lines 104-139) -/

/-- Mutable controller state threaded through the probing phases:
`self.z_height` and `self.trigger_height`. -/
structure ProbeSt where
  z_height : ℚ
  trigger_height : ℚ
deriving DecidableEq

/-- Method `coarse_probe` (calibrate-probe.py lines 104-118): message,
deploy, G91, descent loop with `COARSE_STEP`; afterwards `probe_triggered`
is queried once more and only on a triggered answer is M114 parsed into
`trigger_height` and the probe stowed (with `PROBE_STOW_DELAY`); the
final message always follows.  The result is `none` when the M114 parse
raises, otherwise the next M119 index and the updated state.  Note the
untriggered path stows nothing and reports no failure. -/
def coarse_probe (env : Env) (fuel : Nat) (k : Nat) (st : ProbeSt) :
    Option (Nat × ProbeSt) × List Ev :=
  let r := descLoop (trigAt env) COARSE_STEP (Ev.moveZRel (-COARSE_STEP)) fuel k st.z_height
  let post : Option (Nat × ProbeSt) × List Ev :=
    if trigAt env r.1 then
      match parseM114Z env.m114 with
      | some t =>
        (some (r.1 + 1, ⟨r.2.1, t⟩),
         [Ev.statusQuery, Ev.message, Ev.posQuery, Ev.stow,
          Ev.sleep PROBE_STOW_DELAY, Ev.message])
      | none => (none, [Ev.statusQuery, Ev.message, Ev.posQuery])
    else (some (r.1 + 1, ⟨r.2.1, st.trigger_height⟩), [Ev.statusQuery, Ev.message])
  (post.1, Ev.message :: Ev.deploy :: Ev.setRel :: (r.2.2 ++ post.2))

/-- One iteration of the `for run in range(3)` body of `fine_probe`
(calibrate-probe.py lines 123-137): message; `z_height :=
trigger_height + COARSE_STEP`; G90; move to `SAFE_Z_HEIGHT`; sleep 3;
deploy; move to `z_height`; G91; descent loop with `FINE_STEP`; the
loop-end `z_height` is appended as the sample; message; stow; settle
sleep.  Returns the next M119 index, the recorded sample and the trace. -/
def fine_run (env : Env) (fuel : Nat) (k : Nat) (t : ℚ) : Nat × ℚ × List Ev :=
  let z0 := t + COARSE_STEP
  let r := descLoop (trigAt env) FINE_STEP (Ev.moveZRelF (-FINE_STEP)) fuel k z0
  (r.1, r.2.1,
   Ev.message :: Ev.setAbs :: Ev.moveZAbs SAFE_Z_HEIGHT :: Ev.sleep 3 ::
   Ev.deploy :: Ev.moveZAbs z0 :: Ev.setRel ::
   (r.2.2 ++ [Ev.message, Ev.stow, Ev.sleep PROBE_STOW_DELAY]))

/-- Result of `fine_probe`: next M119 index, the three recorded samples
in order, the returned `final_z_height`, and the trace. -/
structure FineRes where
  k : Nat
  samples : List ℚ
  final : ℚ
  trace : List Ev
deriving DecidableEq

/-- Method `fine_probe` (calibrate-probe.py lines 120-139): three
`fine_run` repetitions sharing `trigger_height`, then
`final_z_height = sum(z_heights) / len(z_heights)`. -/
def fine_probe (env : Env) (fuel : Nat) (k : Nat) (t : ℚ) : FineRes :=
  let r1 := fine_run env fuel k t
  let r2 := fine_run env fuel r1.1 t
  let r3 := fine_run env fuel r2.1 t
  let samples := [r1.2.1, r2.2.1, r3.2.1]
  ⟨r3.1, samples, samples.sum / (samples.length : ℚ),
   r1.2.2 ++ r2.2.2 ++ r3.2.2⟩

/-! ## run (calibrate-probe.py lines 141-202) -/

/-- Terminal outcome of `run`: `ok v` when the try block completes and
the value `v` was persisted with M851, `exc` when an exception reached
the handlers (which print the error, close the port in `finally` and
`sys.exit()` — they send no further device command), `fuelOut` when a
model fuel bound was hit (no Python counterpart; theorems supply enough
fuel). -/
inductive RunOut where
  | ok (v : ℚ)
  | exc
  | fuelOut
deriving DecidableEq

/-- Method `run` (calibrate-probe.py lines 141-202) as a trace and an
outcome.  The try body is straight-line: startup message;
`get_printer_information` (M115 then M851); center computation; M420;
optional homing; heating and `wait_for_temperature`; positioning moves;
`coarse_probe`; return to safe height; `fine_probe`;
`M851 Z-{final_z_height}` — modelled as `persistOffset (-final)`, the
numeric value the command text encodes for the nonnegative `final` the
script produces; optional bed-off; optional G29; M500; closing message.
On an exception the handlers only print and fall to `finally`
(`self.ser.close(); sys.exit()`), hence the trace ends at the failing
command followed by `close`. -/
def runTrace (env : Env) (cfg : Cfg) (fuel : Nat) : List Ev × RunOut :=
  let info := get_printer_information env
  let tr1 := Ev.message :: info.2
  match info.1 with
  | none => (tr1 ++ [Ev.close], RunOut.exc)
  | some g =>
      let c := calculate_center_position g.1.1 g.1.2 g.2.1 g.2.2.1
      let tr2 := tr1 ++ [Ev.levelingOff]
        ++ (if cfg.skip_homing then [] else [Ev.home, Ev.sleep 10])
        ++ [Ev.sleep 10, Ev.setBedTemp cfg.bed_temp, Ev.message]
      match wait_for_temperature env.m105 cfg.bed_temp fuel 0 with
      | PollRes.fuelOut tr => (tr2 ++ tr, RunOut.fuelOut)
      | PollRes.raised tr => (tr2 ++ tr ++ [Ev.close], RunOut.exc)
      | PollRes.returned _ tr =>
        let tr3 := tr2 ++ tr ++ [Ev.sleep 1, Ev.setAbs,
          Ev.moveZAbs SAFE_Z_HEIGHT, Ev.sleep 1, Ev.moveXY c.1 c.2, Ev.sleep 3]
        match coarse_probe env fuel 0 ⟨SAFE_Z_HEIGHT, 0⟩ with
        | (none, ctr) => (tr3 ++ ctr ++ [Ev.close], RunOut.exc)
        | (some ks, ctr) =>
          let tr4 := tr3 ++ ctr ++ [Ev.setAbs, Ev.moveZAbs SAFE_Z_HEIGHT, Ev.sleep 3]
          let f := fine_probe env fuel ks.1 ks.2.trigger_height
          let tr5 := tr4 ++ f.trace ++ [Ev.persistOffset (-f.final)]
            ++ (if cfg.disable_bed then [Ev.setBedTemp 0, Ev.sleep 1] else [])
            ++ (if cfg.run_g29 then
                  [Ev.meshQuery, Ev.meshRefine, Ev.sleep 1, Ev.meshRefine, Ev.sleep 1]
                else [])
            ++ [Ev.sleep 1, Ev.saveConfig, Ev.sleep 3, Ev.message, Ev.sleep 3, Ev.close]
          (tr5, RunOut.ok (-f.final))

/-- Trace of a run in which the transport fails at the `n`-th
device-visible event: the events before it have happened; the exception
propagates out of the try body to the handlers, which print the error
and reach `finally` (`self.ser.close(); sys.exit()`) — they attempt no
probe stow and no heater-off command (calibrate-probe.py lines 196-202,
identically calibrate_probe.py lines 199-205). -/
def abortTrace (env : Env) (cfg : Cfg) (fuel : Nat) (n : Nat) : List Ev :=
  (runTrace env cfg fuel).1.take n ++ [Ev.close]

/-! ## The calibrate_probe.py variant: sample negation and persist -/

/-- Fine-probe sample bookkeeping of calibrate-probe.py: `fine_probe`
appends each loop-end height as the sample (line 134), `run` persists the
mean with `M851 Z-{final_z_height}` (line 176), i.e. the command encodes
the negated mean.  `zs` is the list of per-run loop-end heights. -/
def persistV1 (zs : List ℚ) : ℚ := -(zs.sum / (zs.length : ℚ))

/-- Fine-probe sample bookkeeping of calibrate_probe.py: the module-level
loop appends the negated loop-end height `z_heights.append(-z_height)`
(line 175), averages (line 184) and persists with `M851 Z{final_z_height}`
(line 188), i.e. the command encodes the mean of the negated samples.
`zs` is the same list of per-run loop-end heights. -/
def persistV2 (zs : List ℚ) : ℚ :=
  (zs.map (fun z => -z)).sum / ((zs.map (fun z => -z)).length : ℚ)

/-- Modelled from the spec: `CalibrationResult` is "the arithmetic mean
of a fixed number of CalibrationSamples" (§3, §8).  Used to compare the
spec's formula with the code's `sum(z_heights) / len(z_heights)`. -/
def arithMean (l : List ℚ) : ℚ := l.sum / (l.length : ℚ)

/-! ## Concrete environments and configurations used by witnesses -/

/-- Environment whose M119 responses never contain the probe token (the
probe never reports Triggered), whose M115 lacks the area envelope, and
whose first M105 already reports bed temperature 70 against target 65. -/
def env0 : Env :=
  ⟨"FIRMWARE_NAME:Marlin", "M851 X0.00 Y0.00 Z0.00",
   fun _ => "ok T:25.0 /0.0 B:70.0 /65.0",
   fun _ => "x_min: open",
   "X:0.00 Y:0.00 Z:0.00 E:0.00 Count X:0 Y:0 Z:0"⟩

/-- Environment for a fine-probe session whose three runs trigger after
20, 22 and 21 fine steps respectively (M119 queries 20, 43 and 65). -/
def env3 : Env :=
  ⟨"FIRMWARE_NAME:Marlin", "M851 X0.00 Y0.00 Z0.00",
   fun _ => "ok T:25.0 /0.0 B:70.0 /65.0",
   fun n => if n = 20 ∨ n = 43 ∨ n = 65 then "z_probe: TRIGGERED" else "z_probe: open",
   "X:0.00 Y:0.00 Z:0.00 E:0.00 Count X:0 Y:0 Z:0"⟩

/-- Default configuration: target 65, keep bed on, no G29, skip homing. -/
def cfg0 : Cfg := ⟨65, false, false, true⟩

/-- Environment whose probe always reports Triggered (so the coarse loop
exits on its very first check and the post-loop check also sees
Triggered), with a parsable M114 at Z = 5.43. -/
def envT : Env :=
  ⟨"FIRMWARE_NAME:Marlin", "M851 X0.00 Y0.00 Z0.00",
   fun _ => "ok T:25.0 /0.0 B:70.0 /65.0",
   fun _ => "z_probe: TRIGGERED",
   "X:0.00 Y:0.00 Z:5.43 E:0.00 Count X:0 Y:0 Z:0"⟩

/-- M105 responses that never start with "ok T:" — every poll continues. -/
def m105busy : Nat → String := fun _ => "echo:busy processing"

/-- M105 responses that start with "ok T:" but have no third colon field,
so the index access in `wait_for_temperature` raises. -/
def m105junk : Nat → String := fun _ => "ok T:junk"

/-- An M115 response containing a well-formed area envelope with max
corner (235, 210). -/
def m115good : String :=
  "FIRMWARE_NAME:Marlin 2.0\nCap:EEPROM:1\narea:\x7bfull:\x7bmin:\x7bx:0.00,y:0.00,z:0.00\x7d,max:\x7bx:235.00,y:210.00,z:250.00\x7d\x7d\x7d"

/-- Trace of `fuel` consecutive continue-polls of `wait_for_temperature`:
a temperature query and a one-second sleep per round. -/
def contTrace : Nat → List Ev
  | 0 => []
  | f+1 => Ev.tempQuery :: Ev.sleep 1 :: contTrace f

/-! ## Helper lemmas -/

/-- Descent loop under a never-triggering probe, started at an exact
multiple of the step: it runs exactly `m` iterations, ending exactly at
height 0, with the trace `descTrace mv m`. -/
theorem descLoop_never (trig : Nat → Bool) (step : ℚ) (mv : Ev)
    (hstep : 0 < step) (h : ∀ n, trig n = false) :
    ∀ m fuel k : Nat, m < fuel →
      descLoop trig step mv fuel k ((m : ℚ) * step) =
        (k + m + 1, 0, descTrace mv m) := by
  intro m
  induction m with
  | zero =>
    intro fuel k hf
    match fuel, hf with
    | fuel + 1, _ => simp [descLoop, h, descTrace]
  | succ m ih =>
    intro fuel k hf
    match fuel, hf with
    | fuel + 1, hf =>
      have hpos : (0 : ℚ) < ((m + 1 : ℕ) : ℚ) * step := by
        have : (0 : ℚ) < ((m + 1 : ℕ) : ℚ) := by positivity
        exact mul_pos this hstep
      have hz : ((m + 1 : ℕ) : ℚ) * step - step = ((m : ℕ) : ℚ) * step := by
        push_cast; ring
      simp only [descLoop, h, Bool.false_eq_true, if_false, hpos, if_true, hz,
        ih fuel (k + 1) (by omega)]
      refine Prod.ext ?_ (Prod.ext rfl ?_)
      · simp; omega
      · simp [descTrace]

/-- Descent loop lower bound: whatever the probe does, the final height
is more than one step below the entry height bound; in particular a loop
entered above `-step` exits above `-step`. -/
theorem descLoop_lb (trig : Nat → Bool) (step : ℚ) (mv : Ev) :
    ∀ (fuel k : Nat) (z : ℚ), -step < z →
      -step < (descLoop trig step mv fuel k z).2.1 := by
  intro fuel
  induction fuel with
  | zero => intro k z hz; simpa [descLoop] using hz
  | succ fuel ih =>
    intro k z hz
    cases htk : trig k with
    | true => simpa [descLoop, htk] using hz
    | false =>
      by_cases h0 : 0 < z
      · simpa [descLoop, htk, h0] using ih (k + 1) (z - step) (by linarith)
      · simpa [descLoop, htk, h0] using hz

/-- The temperature wait loop polls forever when every poll continues:
for every fuel bound it is still running, having issued one query and one
sleep per round and no other event. -/
theorem wait_all_cont (m105 : Nat → String) (target : ℚ)
    (h : ∀ n, waitPoll (m105 n) target = PollStep.cont) :
    ∀ fuel k, wait_for_temperature m105 target fuel k =
      PollRes.fuelOut (contTrace fuel) := by
  intro fuel
  induction fuel with
  | zero => intro k; simp [wait_for_temperature, contTrace]
  | succ fuel ih =>
    intro k
    simp [wait_for_temperature, h, ih (k + 1), contTrace]

/-- The temperature wait loop returns after poll `k + n` when the first
`n` polls continue and poll `k + n` reaches the target. -/
theorem wait_first_done (m105 : Nat → String) (target : ℚ) :
    ∀ n fuel k : Nat,
      (∀ m, m < n → waitPoll (m105 (k + m)) target = PollStep.cont) →
      waitPoll (m105 (k + n)) target = PollStep.done → n < fuel →
      wait_for_temperature m105 target fuel k =
        PollRes.returned (k + n) (contTrace n ++ [Ev.tempQuery]) := by
  intro n
  induction n with
  | zero =>
    intro fuel k hc hd hf
    match fuel, hf with
    | fuel + 1, _ => simp_all [wait_for_temperature, contTrace]
  | succ n ih =>
    intro fuel k hc hd hf
    match fuel, hf with
    | fuel + 1, hf =>
      have h0 : waitPoll (m105 k) target = PollStep.cont := by
        simpa using hc 0 (by omega)
      have hrec := ih fuel (k + 1)
        (fun m hm => by
          have := hc (m + 1) (by omega)
          simpa [Nat.add_assoc, Nat.add_comm 1 m] using this)
        (by
          have : k + 1 + n = k + (n + 1) := by omega
          rw [this]; exact hd)
        (by omega)
      simp only [wait_for_temperature, h0, hrec]
      have : k + 1 + n = k + (n + 1) := by omega
      simp [this, contTrace]

/-- The temperature wait loop terminates by raising when the first `n`
polls continue and poll `k + n` hits an unparsable "ok T:"-prefixed
report. -/
theorem wait_first_exc (m105 : Nat → String) (target : ℚ) :
    ∀ n fuel k : Nat,
      (∀ m, m < n → waitPoll (m105 (k + m)) target = PollStep.cont) →
      waitPoll (m105 (k + n)) target = PollStep.exc → n < fuel →
      wait_for_temperature m105 target fuel k =
        PollRes.raised (contTrace n ++ [Ev.tempQuery]) := by
  intro n
  induction n with
  | zero =>
    intro fuel k hc hd hf
    match fuel, hf with
    | fuel + 1, _ => simp_all [wait_for_temperature, contTrace]
  | succ n ih =>
    intro fuel k hc hd hf
    match fuel, hf with
    | fuel + 1, hf =>
      have h0 : waitPoll (m105 k) target = PollStep.cont := by
        simpa using hc 0 (by omega)
      have hrec := ih fuel (k + 1)
        (fun m hm => by
          have := hc (m + 1) (by omega)
          simpa [Nat.add_assoc, Nat.add_comm 1 m] using this)
        (by
          have : k + 1 + n = k + (n + 1) := by omega
          rw [this]; exact hd)
        (by omega)
      simp [wait_for_temperature, h0, hrec, contTrace]

/-- When no response line contains "z_probe:", `get_probe_status`
returns `none`. -/
theorem get_probe_status_none (resp : String)
    (h : ∀ l ∈ pySplit resp "\n", strContainsSub "z_probe:" l = false) :
    get_probe_status resp = none := by
  have hf : (pySplit resp "\n").find? (fun l => strContainsSub "z_probe:" l) = none :=
    List.find?_eq_none.mpr (fun l hl => by simp [h l hl])
  unfold get_probe_status
  rw [hf]

/-- When no response line contains "z_probe:", `probe_triggered` is
false. -/
theorem probe_triggered_none (resp : String)
    (h : ∀ l ∈ pySplit resp "\n", strContainsSub "z_probe:" l = false) :
    probe_triggered resp = false := by
  simp [probe_triggered, get_probe_status_none resp h]

/-- When no received line carries the acknowledgment prefix, the
`send_command` read loop collects every line. -/
theorem collect_no_ack :
    ∀ ls : List String, (∀ l ∈ ls, okAck l = false) → collectResponses ls = ls := by
  intro ls
  induction ls with
  | nil => intro _; rfl
  | cons a l ih =>
    intro h
    have ha : okAck a = false := h a (by simp)
    simp [collectResponses, ha, ih (fun x hx => h x (by simp [hx]))]

/-- The collected response lines contain an acknowledgment line exactly
when the received lines do. -/
theorem collect_any_ack :
    ∀ ls : List String, (collectResponses ls).any okAck = ls.any okAck := by
  intro ls
  induction ls with
  | nil => rfl
  | cons a l ih =>
    by_cases ha : okAck a = true
    · simp [collectResponses, ha]
    · simp only [Bool.not_eq_true] at ha
      simp [collectResponses, ha, ih]

/-- A never-triggered descent trace contains exactly `m` moves. -/
theorem descTrace_count (mv : Ev) (hne : mv ≠ Ev.statusQuery) :
    ∀ m, (descTrace mv m).count mv = m := by
  intro m
  induction m with
  | zero => simp [descTrace, List.count_cons, List.count_nil, hne, Ne.symm hne]
  | succ m ih => simp [descTrace, List.count_cons, ih, Ne.symm hne]

/-- `coarse_probe` under a never-triggering probe, from the initial state
(`z_height = SAFE_Z_HEIGHT`, any prior `trigger_height`): the descent
runs exactly 35 moves, ends exactly at height 0, the post-loop check also
fails, no stow happens, and the result is a normal `some` with
`trigger_height` unchanged. -/
theorem coarse_probe_never (env : Env) (fuel : Nat) (hf : 36 ≤ fuel)
    (h : ∀ n, trigAt env n = false) (t0 : ℚ) :
    coarse_probe env fuel 0 ⟨SAFE_Z_HEIGHT, t0⟩ =
      (some (37, ⟨0, t0⟩),
       Ev.message :: Ev.deploy :: Ev.setRel ::
       (descTrace (Ev.moveZRel (-COARSE_STEP)) 35 ++ [Ev.statusQuery, Ev.message])) := by
  have h7 : (⟨SAFE_Z_HEIGHT, t0⟩ : ProbeSt).z_height = ((35 : ℕ) : ℚ) * COARSE_STEP := by
    norm_num [SAFE_Z_HEIGHT, COARSE_STEP]
  have hd : descLoop (trigAt env) COARSE_STEP (Ev.moveZRel (-COARSE_STEP)) fuel 0
      ((⟨SAFE_Z_HEIGHT, t0⟩ : ProbeSt).z_height) =
      (0 + 35 + 1, 0, descTrace (Ev.moveZRel (-COARSE_STEP)) 35) := by
    rw [h7]
    exact descLoop_never (trigAt env) COARSE_STEP (Ev.moveZRel (-COARSE_STEP))
      (by norm_num [COARSE_STEP]) h 35 fuel 0 (by omega)
  simp [coarse_probe, hd, h]

/-- `fine_run` under a never-triggering probe with `trigger_height = 0`
(the value it keeps after an untriggered coarse probe): the fine descent
starts at `0 + COARSE_STEP`, runs exactly 20 moves, and records the
sample 0. -/
theorem fine_run_never (env : Env) (fuel : Nat) (hf : 21 ≤ fuel)
    (h : ∀ n, trigAt env n = false) (k : Nat) :
    fine_run env fuel k 0 = (k + 21, 0,
      Ev.message :: Ev.setAbs :: Ev.moveZAbs SAFE_Z_HEIGHT :: Ev.sleep 3 ::
      Ev.deploy :: Ev.moveZAbs COARSE_STEP :: Ev.setRel ::
      (descTrace (Ev.moveZRelF (-FINE_STEP)) 20 ++
        [Ev.message, Ev.stow, Ev.sleep PROBE_STOW_DELAY])) := by
  have hz : (COARSE_STEP : ℚ) = ((20 : ℕ) : ℚ) * FINE_STEP := by
    norm_num [COARSE_STEP, FINE_STEP]
  have hd : descLoop (trigAt env) FINE_STEP (Ev.moveZRelF (-FINE_STEP)) fuel k
      COARSE_STEP =
      (k + 20 + 1, 0, descTrace (Ev.moveZRelF (-FINE_STEP)) 20) := by
    rw [hz]
    exact descLoop_never (trigAt env) FINE_STEP (Ev.moveZRelF (-FINE_STEP))
      (by norm_num [FINE_STEP]) h 20 fuel k (by omega)
  simp only [fine_run, zero_add, hd]

/-! ## Claim theorems -/

/-- C1 (counterexample): the claim says a never-triggered coarse probe
marks the run failed with ProbeNeverTriggered and the caller aborts
before fine probing.  On the concrete environment `env0`, whose M119
responses never contain the probe token, `coarse_probe` instead returns a
normal `some` result (no failure value of any kind), and the caller's
`run` completes: its outcome is `RunOut.ok 0` and its trace deploys the
probe again (four deploys: one coarse + three fine runs) and persists an
offset — it proceeded to fine probing rather than aborting. -/
theorem C1_counterexample :
    trigAt env0 0 = false ∧
    (coarse_probe env0 1000 0 ⟨SAFE_Z_HEIGHT, 0⟩).1 = some (37, ⟨0, 0⟩) ∧
    Ev.stow ∉ (coarse_probe env0 1000 0 ⟨SAFE_Z_HEIGHT, 0⟩).2 ∧
    (runTrace env0 cfg0 1000).2 = RunOut.ok 0 ∧
    (runTrace env0 cfg0 1000).1.count Ev.deploy = 4 ∧
    Ev.persistOffset 0 ∈ (runTrace env0 cfg0 1000).1 := by
  refine ⟨by decide, by decide, by decide, by decide, by decide, by decide⟩

/-- C1 (amended): for every coarse-probe run in which the probe status is
never Triggered, the descent loop terminates exactly when the tracked
height estimate reaches the zero lower bound — exactly 35 downward moves
of `COARSE_STEP` from `SAFE_Z_HEIGHT = 7.0`, final height exactly 0, not
earlier or later.  However the run is not marked failed: `coarse_probe`
returns a normal `some` result with `trigger_height` unchanged at its
prior value and stows nothing, and the caller proceeds to fine probing
instead of aborting (on `env0` the whole pipeline completes with outcome
`RunOut.ok 0` and four probe deploys). -/
theorem C1_coarse_never_triggered (env : Env) (fuel : Nat) (hf : 36 ≤ fuel)
    (h : ∀ n, trigAt env n = false) (t0 : ℚ) :
    coarse_probe env fuel 0 ⟨SAFE_Z_HEIGHT, t0⟩ =
      (some (37, ⟨0, t0⟩),
       Ev.message :: Ev.deploy :: Ev.setRel ::
       (descTrace (Ev.moveZRel (-COARSE_STEP)) 35 ++ [Ev.statusQuery, Ev.message])) ∧
    (Ev.message :: Ev.deploy :: Ev.setRel ::
       (descTrace (Ev.moveZRel (-COARSE_STEP)) 35 ++
        [Ev.statusQuery, Ev.message])).count (Ev.moveZRel (-COARSE_STEP)) = 35 ∧
    Ev.stow ∉ (Ev.message :: Ev.deploy :: Ev.setRel ::
       (descTrace (Ev.moveZRel (-COARSE_STEP)) 35 ++ [Ev.statusQuery, Ev.message])) ∧
    (runTrace env0 cfg0 1000).2 = RunOut.ok 0 ∧
    (runTrace env0 cfg0 1000).1.count Ev.deploy = 4 := by
  exact ⟨coarse_probe_never env fuel hf h t0, by decide, by decide, by decide, by decide⟩

/-- C1 (witness): the amended theorem applied to the concrete
never-triggering environment `env0` with fuel 1000 and prior trigger
height 0. -/
theorem C1_witness :
    coarse_probe env0 1000 0 ⟨SAFE_Z_HEIGHT, 0⟩ =
      (some (37, ⟨0, 0⟩),
       Ev.message :: Ev.deploy :: Ev.setRel ::
       (descTrace (Ev.moveZRel (-COARSE_STEP)) 35 ++ [Ev.statusQuery, Ev.message])) ∧
    (Ev.message :: Ev.deploy :: Ev.setRel ::
       (descTrace (Ev.moveZRel (-COARSE_STEP)) 35 ++
        [Ev.statusQuery, Ev.message])).count (Ev.moveZRel (-COARSE_STEP)) = 35 ∧
    Ev.stow ∉ (Ev.message :: Ev.deploy :: Ev.setRel ::
       (descTrace (Ev.moveZRel (-COARSE_STEP)) 35 ++ [Ev.statusQuery, Ev.message])) ∧
    (runTrace env0 cfg0 1000).2 = RunOut.ok 0 ∧
    (runTrace env0 cfg0 1000).1.count Ev.deploy = 4 :=
  C1_coarse_never_triggered env0 1000 (by norm_num)
    (fun _ => probe_triggered_none "x_min: open" (by decide)) 0

/-- C2 (counterexample): a transport failure injected at event 20 of the
concrete run on `env0` — after the probe deploy, which is event 15 — is
followed by no stow attempt and no heater-off command: the only event
after the failure point in the abort trace is closing the port. -/
theorem C2_counterexample :
    Ev.deploy ∈ (runTrace env0 cfg0 1000).1.take 20 ∧
    Ev.stow ∉ abortTrace env0 cfg0 1000 20 ∧
    Ev.setBedTemp 0 ∉ abortTrace env0 cfg0 1000 20 ∧
    (abortTrace env0 cfg0 1000 20).drop 20 = [Ev.close] := by
  refine ⟨by decide, by decide, by decide, by decide⟩

/-- C2 (amended): for every failure point, the abort path preserves the
events already issued and afterwards only closes the transport — the
exception handlers print the error and the `finally` block closes the
port and exits; they attempt no probe stow and no heater-off command
before (or after) the error is reported. -/
theorem C2_abort_no_cleanup (env : Env) (cfg : Cfg) (fuel n : Nat)
    (h : n ≤ (runTrace env cfg fuel).1.length) :
    (abortTrace env cfg fuel n).take n = (runTrace env cfg fuel).1.take n ∧
    (abortTrace env cfg fuel n).drop n = [Ev.close] := by
  have hl : ((runTrace env cfg fuel).1.take n).length = n := by
    rw [List.length_take]; omega
  exact ⟨by unfold abortTrace; rw [List.take_left' hl],
         by unfold abortTrace; rw [List.drop_left' hl]⟩

/-- C2 (witness): the amended theorem applied to the concrete run on
`env0` with the failure injected at event 20. -/
theorem C2_witness :
    (abortTrace env0 cfg0 1000 20).take 20 = (runTrace env0 cfg0 1000).1.take 20 ∧
    (abortTrace env0 cfg0 1000 20).drop 20 = [Ev.close] :=
  C2_abort_no_cleanup env0 cfg0 1000 20 (by decide)

/-- C3: for every fine-probe session the computed calibration result
equals the arithmetic mean of the three recorded samples, and on the
spec's example the mean of [4.82, 4.80, 4.81] is 4.81 — exhibited
end-to-end by the concrete session on `env3`, whose three runs record
exactly those samples and return 4.81. -/
theorem C3_fine_probe_mean :
    (∀ (env : Env) (fuel k : Nat) (t : ℚ),
      (fine_probe env fuel k t).final = arithMean (fine_probe env fuel k t).samples ∧
      (fine_probe env fuel k t).samples.length = 3) ∧
    arithMean [(4.82 : ℚ), 4.80, 4.81] = 4.81 ∧
    (fine_probe env3 100 0 (4.82 : ℚ)).samples = [4.82, 4.80, 4.81] ∧
    (fine_probe env3 100 0 (4.82 : ℚ)).final = 4.81 := by
  refine ⟨fun env fuel k t => ⟨rfl, rfl⟩, by decide, by decide, by decide⟩

/-- C4 (counterexample): on identical per-run loop-end heights [6, 6, 6]
the two variants persist the same value −6, not opposite-sign values:
calibrate-probe.py records the heights and writes `M851 Z-{mean}` while
calibrate_probe.py negates each sample before averaging and writes
`M851 Z{mean-of-negated}` — the same number. -/
theorem C4_counterexample :
    persistV1 [6, 6, 6] = -6 ∧ persistV2 [6, 6, 6] = -6 ∧
    ¬ persistV1 [6, 6, 6] * persistV2 [6, 6, 6] < 0 := by
  refine ⟨by decide, by decide, by decide⟩

/-- C4 (amended): the two variants do negate at different places — one
negates the averaged height inside the store command, the other negates
each sample before averaging — but these agree semantically: for every
list of per-run loop-end heights both persist exactly the negated mean,
so the persisted Z offsets are equal, not of opposite sign.  The second
conjunct ties variant 1's formula to its fine-probe pipeline: the
persisted value is the negation of the `fine_probe` result. -/
theorem C4_variants_agree :
    (∀ zs : List ℚ, persistV1 zs = persistV2 zs) ∧
    (∀ (env : Env) (fuel k : Nat) (t : ℚ),
      persistV1 (fine_probe env fuel k t).samples = -((fine_probe env fuel k t).final)) := by
  constructor
  · intro zs
    have hs : (zs.map (fun z => -z)).sum = -zs.sum := by
      induction zs with
      | nil => simp
      | cons a l ih => simp [ih]; ring
    unfold persistV1 persistV2
    rw [hs, List.length_map, neg_div]
  · intro env fuel k t; rfl

/-- C5 (counterexample): a call whose received lines never include an
acknowledgment does not fail — `send_command` returns a normal
`Except.ok` with the lines received so far, whereas the spec's channel
contract (`send_spec`) would fail with `ProtocolTimeout` there. -/
theorem C5_counterexample :
    send_command ["busy"] = Except.ok ["busy"] ∧
    send_spec ["busy"] = Except.error (ProtoErr.protocolTimeout ["busy"]) := by
  refine ⟨rfl, rfl⟩

/-- C5 (amended): when no line beginning with the acknowledgment token
arrives before the timeout, the call returns normally (it raises no
ProtocolTimeout) with exactly the lines received so far; a timed-out
call is still distinguishable from an acknowledged one because the
returned lines contain an "ok"-prefixed line iff one arrived. -/
theorem C5_no_timeout_failure (avail : List String)
    (h : ∀ l ∈ avail, okAck l = false) :
    send_command avail = Except.ok avail ∧
    (collectResponses avail).any okAck = avail.any okAck ∧
    send_spec avail = Except.error (ProtoErr.protocolTimeout avail) := by
  have hc := collect_no_ack avail h
  have hany : avail.any okAck = false := by
    simp only [List.any_eq_false]
    intro x hx; simp [h x hx]
  refine ⟨by simp [send_command, hc], collect_any_ack avail, by simp [send_spec, hc, hany]⟩

/-- C5 (witness): the amended theorem applied to a concrete two-line
response without an acknowledgment. -/
theorem C5_witness :
    send_command ["line one", "line two"] = Except.ok ["line one", "line two"] ∧
    (collectResponses ["line one", "line two"]).any okAck =
      ["line one", "line two"].any okAck ∧
    send_spec ["line one", "line two"] =
      Except.error (ProtoErr.protocolTimeout ["line one", "line two"]) :=
  C5_no_timeout_failure ["line one", "line two"] (by decide)

/-- C6 (counterexample): on a device-identification response lacking the
area envelope, discovery does fall back to the configured defaults
(235, 235), but it emits no warning of any kind — the discovery phase's
trace is exactly the two queries, with no message event (and the source
has no logging call on that path at all): the fallback is silent, contra
the claim. -/
theorem C6_counterexample :
    bedDims "FIRMWARE_NAME:Marlin" = some (235, 235) ∧
    (get_printer_information env0).2 = [Ev.infoQuery, Ev.offsetQuery] ∧
    Ev.message ∉ (get_printer_information env0).2 := by
  refine ⟨by decide, by decide, by decide⟩

/-- C6 (amended): a device-identification response containing a build
area envelope with max corner (235, 210) yields bed width 235 and height
210; a response with no envelope line yields the configured defaults
(235, 235); the fallback is silent — the discovery trace never contains a
message event. -/
theorem C6_geometry_discovery :
    bedDims m115good = some (235, 210) ∧
    (∀ resp : String,
      (∀ l ∈ pySplit resp "\n", strContainsSub "area:\x7bfull:\x7bmin:" l = false) →
      bedDims resp = some (235, 235)) ∧
    (∀ env : Env, Ev.message ∉ (get_printer_information env).2) := by
  refine ⟨by decide, ?_, ?_⟩
  · intro resp h
    have hf : (pySplit resp "\n").find?
        (fun l => strContainsSub "area:\x7bfull:\x7bmin:" l) = none :=
      List.find?_eq_none.mpr (fun l hl => by simp [h l hl])
    simp [bedDims, hf, DEFAULT_DIMENSIONS]
  · intro env
    cases hbd : bedDims env.m115 with
    | none => simp [get_printer_information, hbd]
    | some wh =>
      cases hpo : parseOffsets env.m851 with
      | none => simp [get_printer_information, hbd, hpo]
      | some o => simp [get_printer_information, hbd, hpo]

/-- C6 (witness): the amended theorem applied to a concrete
envelope-free response and a concrete environment. -/
theorem C6_witness :
    bedDims "FIRMWARE_NAME:Marlin 2.0" = some (235, 235) ∧
    Ev.message ∉ (get_printer_information env3).2 :=
  ⟨C6_geometry_discovery.2.1 "FIRMWARE_NAME:Marlin 2.0" (by decide),
   C6_geometry_discovery.2.2 env3⟩

/-- C7 (counterexample): on the never-triggered coarse path the claim
fails: in the concrete run on `env0` the probe is deployed at event 15,
a subsequent positioning move (`G0 F500 Z7`) is issued at event 91, and
no stow occurs anywhere before it — the coarse phase trace contains no
stow at all. -/
theorem C7_counterexample :
    Ev.stow ∉ (coarse_probe env0 1000 0 ⟨SAFE_Z_HEIGHT, 0⟩).2 ∧
    (runTrace env0 cfg0 1000).1.get? 15 = some Ev.deploy ∧
    (runTrace env0 cfg0 1000).1.get? 91 = some (Ev.moveZAbs SAFE_Z_HEIGHT) ∧
    ((runTrace env0 cfg0 1000).1.take 92).count Ev.stow = 0 := by
  refine ⟨by decide, by decide, by decide, by decide⟩

/-- C7 (amended): in both phases `deploy` is invoked before the first
probe-status query — in the coarse trace deploy is at index 1 and every
status query is later, in each fine-run trace deploy is at index 4 and
every status query is later; each fine run ends with stow followed by
the settle sleep (so the stow and delay precede the next run's moves);
and after a coarse probe whose post-loop check sees Triggered (with a
parsable M114) the trace ends with stow, settle sleep and the final
message.  But on the never-triggered coarse path no stow is issued
before the caller's subsequent positioning moves (see the
counterexample). -/
theorem C7_deploy_stow_order :
    (∀ (env : Env) (fuel k : Nat) (st : ProbeSt),
      (coarse_probe env fuel k st).2.get? 1 = some Ev.deploy) ∧
    (∀ (env : Env) (fuel k : Nat) (st : ProbeSt) (i : Nat),
      (coarse_probe env fuel k st).2.get? i = some Ev.statusQuery → 1 < i) ∧
    (∀ (env : Env) (fuel k : Nat) (t : ℚ),
      (fine_run env fuel k t).2.2.get? 4 = some Ev.deploy) ∧
    (∀ (env : Env) (fuel k : Nat) (t : ℚ) (i : Nat),
      (fine_run env fuel k t).2.2.get? i = some Ev.statusQuery → 4 < i) ∧
    (∀ (env : Env) (fuel k : Nat) (t : ℚ),
      [Ev.message, Ev.stow, Ev.sleep PROBE_STOW_DELAY] <:+ (fine_run env fuel k t).2.2) ∧
    (∀ (env : Env) (fuel k : Nat) (st : ProbeSt),
      trigAt env (descLoop (trigAt env) COARSE_STEP (Ev.moveZRel (-COARSE_STEP)) fuel k
        st.z_height).1 = true →
      (∃ tv, parseM114Z env.m114 = some tv) →
      [Ev.stow, Ev.sleep PROBE_STOW_DELAY, Ev.message] <:+ (coarse_probe env fuel k st).2) := by
  refine ⟨fun env fuel k st => rfl, ?_, fun env fuel k t => rfl, ?_, ?_, ?_⟩
  · intro env fuel k st i hi
    match i with
    | 0 =>
      have h0 : (coarse_probe env fuel k st).2.get? 0 = some Ev.message := rfl
      rw [h0] at hi; simp at hi
    | 1 =>
      have h1 : (coarse_probe env fuel k st).2.get? 1 = some Ev.deploy := rfl
      rw [h1] at hi; simp at hi
    | n + 2 => omega
  · intro env fuel k t i hi
    match i with
    | 0 =>
      have h0 : (fine_run env fuel k t).2.2.get? 0 = some Ev.message := rfl
      rw [h0] at hi; simp at hi
    | 1 =>
      have h1 : (fine_run env fuel k t).2.2.get? 1 = some Ev.setAbs := rfl
      rw [h1] at hi; simp at hi
    | 2 =>
      have h2 : (fine_run env fuel k t).2.2.get? 2 = some (Ev.moveZAbs SAFE_Z_HEIGHT) := rfl
      rw [h2] at hi; simp at hi
    | 3 =>
      have h3 : (fine_run env fuel k t).2.2.get? 3 = some (Ev.sleep 3) := rfl
      rw [h3] at hi; simp at hi
    | 4 =>
      have h4 : (fine_run env fuel k t).2.2.get? 4 = some Ev.deploy := rfl
      rw [h4] at hi; simp at hi
    | n + 5 => omega
  · intro env fuel k t
    refine ⟨Ev.message :: Ev.setAbs :: Ev.moveZAbs SAFE_Z_HEIGHT :: Ev.sleep 3 ::
      Ev.deploy :: Ev.moveZAbs (t + COARSE_STEP) :: Ev.setRel ::
      (descLoop (trigAt env) FINE_STEP (Ev.moveZRelF (-FINE_STEP)) fuel k
        (t + COARSE_STEP)).2.2, ?_⟩
    simp [fine_run]
  · intro env fuel k st htrig hex
    obtain ⟨tv, hparse⟩ := hex
    refine ⟨Ev.message :: Ev.deploy :: Ev.setRel ::
      ((descLoop (trigAt env) COARSE_STEP (Ev.moveZRel (-COARSE_STEP)) fuel k
        st.z_height).2.2 ++ [Ev.statusQuery, Ev.message, Ev.posQuery]), ?_⟩
    simp [coarse_probe, htrig, hparse]

/-- C7 (witness): the amended theorem instantiated on the concrete
environments `env3` (triggering fine runs) and `envT` (a coarse probe
that sees Triggered at the post-loop check). -/
theorem C7_witness :
    (coarse_probe env3 100 0 ⟨SAFE_Z_HEIGHT, 0⟩).2.get? 1 = some Ev.deploy ∧
    1 < 3 ∧
    (fine_run env3 100 0 0).2.2.get? 4 = some Ev.deploy ∧
    4 < 7 ∧
    [Ev.message, Ev.stow, Ev.sleep PROBE_STOW_DELAY] <:+ (fine_run env3 100 0 0).2.2 ∧
    [Ev.stow, Ev.sleep PROBE_STOW_DELAY, Ev.message] <:+
      (coarse_probe envT 100 0 ⟨SAFE_Z_HEIGHT, 0⟩).2 :=
  ⟨C7_deploy_stow_order.1 env3 100 0 ⟨SAFE_Z_HEIGHT, 0⟩,
   C7_deploy_stow_order.2.1 env3 100 0 ⟨SAFE_Z_HEIGHT, 0⟩ 3 (by decide),
   C7_deploy_stow_order.2.2.1 env3 100 0 0,
   C7_deploy_stow_order.2.2.2.1 env3 100 0 0 7 (by decide),
   C7_deploy_stow_order.2.2.2.2.1 env3 100 0 0,
   C7_deploy_stow_order.2.2.2.2.2 envT 100 0 ⟨SAFE_Z_HEIGHT, 0⟩ (by decide)
     ⟨5.43, by decide⟩⟩

/-- C8 (counterexample): a trace whose reports are never parsable does
not poll forever — on M105 responses "ok T:junk" (prefixed like a report
but with no temperature field) the very first poll raises, and the loop
terminates exceptionally even with fuel 1000, contra the claimed
"polls forever with no timeout". -/
theorem C8_counterexample :
    waitPoll "ok T:junk" 65 = PollStep.exc ∧
    wait_for_temperature m105junk 65 1000 0 = PollRes.raised [Ev.tempQuery] := by
  refine ⟨by decide, by decide⟩

/-- C8 (amended): the bed-heating wait loop returns exactly when some
poll's response both starts with "ok T:" and parses to a temperature at
or above the target, provided every earlier poll merely continues; when
every poll continues (report missing the prefix or below target) the
loop polls forever — for every fuel bound it is still running, with no
timeout; and when the first non-continue poll is an "ok T:"-prefixed but
unparsable report, the loop terminates by raising instead. -/
theorem C8_wait_characterization :
    (∀ (m105 : Nat → String) (target : ℚ),
      (∀ n, waitPoll (m105 n) target = PollStep.cont) →
      ∀ fuel k, wait_for_temperature m105 target fuel k = PollRes.fuelOut (contTrace fuel)) ∧
    (∀ (m105 : Nat → String) (target : ℚ) (n fuel : Nat),
      (∀ m, m < n → waitPoll (m105 m) target = PollStep.cont) →
      waitPoll (m105 n) target = PollStep.done → n < fuel →
      wait_for_temperature m105 target fuel 0 =
        PollRes.returned n (contTrace n ++ [Ev.tempQuery])) ∧
    (∀ (m105 : Nat → String) (target : ℚ) (n fuel : Nat),
      (∀ m, m < n → waitPoll (m105 m) target = PollStep.cont) →
      waitPoll (m105 n) target = PollStep.exc → n < fuel →
      wait_for_temperature m105 target fuel 0 =
        PollRes.raised (contTrace n ++ [Ev.tempQuery])) := by
  refine ⟨fun m105 target h => wait_all_cont m105 target h, ?_, ?_⟩
  · intro m105 target n fuel hc hd hf
    have := wait_first_done m105 target n fuel 0
      (fun m hm => by simpa using hc m hm) (by simpa using hd) hf
    simpa using this
  · intro m105 target n fuel hc hd hf
    exact wait_first_exc m105 target n fuel 0
      (fun m hm => by simpa using hc m hm) (by simpa using hd) hf

/-- C8 (witness): the amended theorem applied to three concrete response
streams: never-prefixed responses (still polling at fuel 3), an
immediately-satisfied report, and an immediately-raising report. -/
theorem C8_witness :
    wait_for_temperature m105busy 65 3 0 = PollRes.fuelOut (contTrace 3) ∧
    wait_for_temperature env0.m105 65 5 0 =
      PollRes.returned 0 (contTrace 0 ++ [Ev.tempQuery]) ∧
    wait_for_temperature m105junk 65 5 0 =
      PollRes.raised (contTrace 0 ++ [Ev.tempQuery]) :=
  ⟨C8_wait_characterization.1 m105busy 65
      (fun _ => (by decide : waitPoll "echo:busy processing" 65 = PollStep.cont)) 3 0,
   C8_wait_characterization.2.1 env0.m105 65 0 5
      (fun m hm => absurd hm (by omega)) (by decide) (by omega),
   C8_wait_characterization.2.2 m105junk 65 0 5
      (fun m hm => absurd hm (by omega)) (by decide) (by omega)⟩

/-- C9 (counterexample): a fine-probe run can record a negative sample:
with last trigger height 0.005 (so the descent starts at 0.205) and a
probe that never triggers, the loop crosses zero and records the sample
−0.005 < 0, contra "non-negative by construction". -/
theorem C9_counterexample :
    (fine_probe env0 100 0 (1/200)).samples.head? = some (-(1/200)) ∧
    ((-(1/200) : ℚ) < 0) := by
  refine ⟨by decide, by norm_num⟩

/-- C9 (amended): provided the starting height is positive (trigger
height above −COARSE_STEP), every recorded sample is greater than
−FINE_STEP — the loop can overshoot zero by less than one fine step (and
that is the only way a sample goes negative); it is not non-negative in
general. -/
theorem C9_samples_low_bound (env : Env) (fuel k : Nat) (t : ℚ)
    (h : -COARSE_STEP < t) :
    ((fine_probe env fuel k t).samples).all (fun s => decide (-FINE_STEP < s)) = true := by
  have hz : -FINE_STEP < t + COARSE_STEP := by
    have h1 : (0 : ℚ) < COARSE_STEP := by norm_num [COARSE_STEP]
    have h2 : (0 : ℚ) < FINE_STEP := by norm_num [FINE_STEP]
    linarith
  simp only [fine_probe, fine_run, List.all_cons, List.all_nil, Bool.and_eq_true,
    decide_eq_true_eq, and_true]
  exact ⟨descLoop_lb (trigAt env) FINE_STEP (Ev.moveZRelF (-FINE_STEP)) fuel _ _ hz,
    descLoop_lb (trigAt env) FINE_STEP (Ev.moveZRelF (-FINE_STEP)) fuel _ _ hz,
    descLoop_lb (trigAt env) FINE_STEP (Ev.moveZRelF (-FINE_STEP)) fuel _ _ hz⟩

/-- C9 (witness): the amended theorem applied to the concrete
environment `env0` with trigger height 0. -/
theorem C9_witness :
    ((fine_probe env0 100 0 0).samples).all (fun s => decide (-FINE_STEP < s)) = true :=
  C9_samples_low_bound env0 100 0 0 (by norm_num [COARSE_STEP])

/-- C10: a probe-status response with no "z_probe:" line parses to
`none`, `probe_triggered` is false, and the descent loops treat that
exactly like an untriggered probe: under such responses the coarse loop
from 7.0 issues all 35 downward moves to the zero floor (returning
normally), and a fine run from trigger height 0 issues all 20 downward
moves and records sample 0. -/
theorem C10_unknown_like_untriggered (resp : String)
    (hresp : ∀ l ∈ pySplit resp "\n", strContainsSub "z_probe:" l = false)
    (env : Env) (he : ∀ n, env.m119 n = resp) (fuel : Nat) (hf : 36 ≤ fuel) :
    get_probe_status resp = none ∧
    probe_triggered resp = false ∧
    (coarse_probe env fuel 0 ⟨SAFE_Z_HEIGHT, 0⟩).1 = some (37, ⟨0, 0⟩) ∧
    (coarse_probe env fuel 0 ⟨SAFE_Z_HEIGHT, 0⟩).2.count (Ev.moveZRel (-COARSE_STEP)) = 35 ∧
    (fine_run env fuel 0 0).2.1 = 0 ∧
    (fine_run env fuel 0 0).2.2.count (Ev.moveZRelF (-FINE_STEP)) = 20 := by
  have htrig : ∀ n, trigAt env n = false := fun n => by
    unfold trigAt; rw [he n]; exact probe_triggered_none resp hresp
  have hc := coarse_probe_never env fuel hf htrig 0
  have hfr := fine_run_never env fuel (by omega) htrig 0
  refine ⟨get_probe_status_none resp hresp, probe_triggered_none resp hresp,
    ?_, ?_, ?_, ?_⟩
  · rw [hc]
  · rw [hc]
    have hct := descTrace_count (Ev.moveZRel (-COARSE_STEP)) (by simp) 35
    simp [List.count_cons, List.count_append, hct]
  · rw [hfr]
  · rw [hfr]
    have hct := descTrace_count (Ev.moveZRelF (-FINE_STEP)) (by simp) 20
    simp [List.count_cons, List.count_append, hct]

/-- C10 (witness): the theorem applied to the concrete token-free
response "x_min: open" delivered by `env0`. -/
theorem C10_witness :
    get_probe_status "x_min: open" = none ∧
    probe_triggered "x_min: open" = false ∧
    (coarse_probe env0 1000 0 ⟨SAFE_Z_HEIGHT, 0⟩).1 = some (37, ⟨0, 0⟩) ∧
    (coarse_probe env0 1000 0 ⟨SAFE_Z_HEIGHT, 0⟩).2.count (Ev.moveZRel (-COARSE_STEP)) = 35 ∧
    (fine_run env0 1000 0 0).2.1 = 0 ∧
    (fine_run env0 1000 0 0).2.2.count (Ev.moveZRelF (-FINE_STEP)) = 20 :=
  C10_unknown_like_untriggered "x_min: open" (by decide) env0 (fun _ => rfl) 1000
    (by norm_num)

